import Mathlib

/-!
Shallow embedding of the smartmeter-netz-noe repository.

The repository has two historical versions of its two modules:
`src/smartmeter.py` / `src/import_sqlite.py` (older) and
`src/src/smartmeter.py` / `src/src/import_sqlite.py` (newer).  The newer
version is the one containing the maintenance-mode login check, the
multi-record abort in `get_consumption_records_for_day` and the
`.DS_Store` / non-directory skipping; where the two versions differ the
embedding follows `src/src/` (the version the claims cite for those
behaviours).  `download_consumptions_for_meter` and the row-insertion
logic of the importer are identical in both versions.

Python JSON values are modelled by the inductive type `Json`.  ISO-8601
timestamp strings are kept as `String` (`datetime.fromisoformat` is
treated as the identity on its accepted inputs; no claim depends on the
parsing or normalisation of a timestamp, only on equality of distinct
concrete timestamps).  SQLite REAL values travel through the embedding
as the `Json` values they were parsed from.
-/

namespace SmartmeterNetzNoe

/-- A Python/JSON value as produced by `json.loads`. -/
inductive Json where
  | null : Json
  | bool (b : Bool) : Json
  | num (q : ℚ) : Json
  | str (s : String) : Json
  | arr (xs : List Json) : Json
  | obj (kvs : List (String × Json)) : Json

/-- Errors raised while parsing a day file in `import_data`
(`json_data[key]` raises `KeyError`; iterating or subscripting a value of
the wrong shape raises `TypeError`). -/
inductive ImpErr where
  | keyError (k : String) : ImpErr
  | typeError : ImpErr
deriving DecidableEq

/-- Python subscripting `j[k]` with a string key: defined on dicts
(`KeyError` when the key is absent), a `TypeError` on anything else. -/
def pyGetKey (j : Json) (k : String) : Except ImpErr Json :=
  match j with
  | .obj kvs =>
    match kvs.lookup k with
    | some v => .ok v
    | none => .error (.keyError k)
  | _ => .error .typeError

/-- Python iteration `iter(j)` as performed by `zip(...)` and list
comprehensions: lists yield their elements, dicts their keys, strings
their characters; anything else raises `TypeError`. -/
def pyIterate (j : Json) : Except ImpErr (List Json) :=
  match j with
  | .arr xs => .ok xs
  | .obj kvs => .ok (kvs.map (fun kv => Json.str kv.1))
  | .str s => .ok (s.toList.map (fun c => Json.str (String.mk [c])))
  | _ => .error .typeError

/-- `datetime.datetime.fromisoformat(d)`: requires a string argument
(`TypeError` otherwise); the timestamp itself is kept as the string. -/
def parseTimestamp (x : Json) : Except ImpErr String :=
  match x with
  | .str s => .ok s
  | _ => .error .typeError

/-- The list comprehension
`[datetime.datetime.fromisoformat(d) for d in json_data["peakDemandTimes"]]`,
element by element, propagating the first error. -/
def parseTimestamps : List Json → Except ImpErr (List String)
  | [] => .ok []
  | x :: xs => do
    let t ← parseTimestamp x
    let ts ← parseTimestamps xs
    return t :: ts

/-- One store row, as inserted by `INSERT_SQL`: columns
`(timestamp, metered, estimated, metered_peak, estimated_peak, mean_profile)`. -/
structure Row where
  timestamp : String
  metered : Json
  estimated : Json
  meteredPeak : Json
  estimatedPeak : Json
  meanProfile : Json

/-- Python `zip` of the six parallel sequences: truncates to the
shortest sequence, exactly like `zip(...)` in `import_data`. -/
def zip6 (ts : List String) (a b c d e : List Json) : List Row :=
  match ts with
  | [] => []
  | t :: ts2 =>
    match a with
    | [] => []
    | a0 :: a1 =>
      match b with
      | [] => []
      | b0 :: b1 =>
        match c with
        | [] => []
        | c0 :: c1 =>
          match d with
          | [] => []
          | d0 :: d1 =>
            match e with
            | [] => []
            | e0 :: e1 => ⟨t, a0, b0, c0, d0, e0⟩ :: zip6 ts2 a1 b1 c1 d1 e1

/-- Parsing one day file into its row list, following `import_data`
line by line: first the `peakDemandTimes` comprehension (subscript,
iterate, `fromisoformat` each element), then the five remaining
subscripts left to right, then `zip` takes an iterator of each argument
left to right. -/
def parseDayFile (f : Json) : Except ImpErr (List Row) := do
  let pdtJ ← pyGetKey f "peakDemandTimes"
  let pdtL ← pyIterate pdtJ
  let pdt ← parseTimestamps pdtL
  let mvJ ← pyGetKey f "meteredValues"
  let evJ ← pyGetKey f "estimatedValues"
  let pdJ ← pyGetKey f "meteredPeakDemands"
  let edJ ← pyGetKey f "estimatedPeakDemands"
  let mpJ ← pyGetKey f "meanProfile"
  let mv ← pyIterate mvJ
  let ev ← pyIterate evJ
  let pd ← pyIterate pdJ
  let ed ← pyIterate edJ
  let mp ← pyIterate mpJ
  return zip6 pdt mv ev pd ed mp

/-- The store of one metering point: the rows of `consumption_data` in
insertion order (the autoincrement `id` is the list position). -/
abbrev Store := List Row

/-- The timestamps currently present in the store (the column covered by
`CREATE_UNIQUE_INDEX_SQL`). -/
def timestamps (st : Store) : List String :=
  st.map Row.timestamp

/-- `INSERT ... ON CONFLICT(timestamp) DO NOTHING`: a row whose
timestamp is already present leaves the store unchanged; otherwise the
row is appended. -/
def insertRow (st : Store) (r : Row) : Store :=
  if st.any (fun r2 => r2.timestamp == r.timestamp) then st else st ++ [r]

/-- `con.executemany(INSERT_SQL, data)`: insert the rows in order. -/
def insertRows (st : Store) (rows : List Row) : Store :=
  rows.foldl insertRow st

/-- Importing one day file into a store (`import_data`, inner loop body):
parse the six sequences, zip them into rows, insert them all. -/
def importDayFile (st : Store) (f : Json) : Except ImpErr Store :=
  (parseDayFile f).map (fun rows => insertRows st rows)

/-- Importing the day files of one metering-point directory in sorted
order; a parse error aborts the run (the exception propagates out of
`import_data`). -/
def importMeterDir (st : Store) : List Json → Except ImpErr Store
  | [] => .ok st
  | f :: fs => do
    let st1 ← importDayFile st f
    importMeterDir st1 fs

/-- `import_data`: every metering-point directory, each with its own
store and its own day files, imported in sequence; the first parse error
aborts the whole run. -/
def importAll : List (Store × List Json) → Except ImpErr (List Store)
  | [] => .ok []
  | (st, fs) :: rest => do
    let st1 ← importMeterDir st fs
    let sts ← importAll rest
    return st1 :: sts

/-! ## Fetcher (`src/src/smartmeter.py`) -/

/-- Why `get_consumption_records_for_day` stops the process: `sys.exit(1)`
on a multi-record response, or an uncaught exception (`KeyError`,
`IndexError`, `TypeError`). -/
inductive FetchStop where
  | abortMulti : FetchStop
  | crash : FetchStop
deriving DecidableEq

/-- Python subscripting `j[0]` with the integer key `0`: the first
element of a list (`IndexError` when empty), the first character of a
string, a `KeyError` on a string-keyed dict, a `TypeError` otherwise. -/
def pyIndexZero (j : Json) : Except FetchStop Json :=
  match j with
  | .arr (x :: _) => .ok x
  | .arr [] => .error .crash
  | .str s =>
    match s.toList with
    | c :: _ => .ok (.str (String.mk [c]))
    | [] => .error .crash
  | _ => .error .crash

/-- Python dict update `kvs | {k: v}`: an existing key keeps its place
and takes the new value, a new key is appended. -/
def objSet (kvs : List (String × Json)) (k : String) (v : Json) : List (String × Json) :=
  if kvs.any (fun kv => kv.1 == k) then
    kvs.map (fun kv => if kv.1 == k then (k, v) else kv)
  else kvs ++ [(k, v)]

/-- `SmartMeter.get_consumption_records_for_day` (src/src version), after
the HTTP exchange: `resp` is the JSON body of `/ConsumptionRecord/Day`
and `mp` the body of `/ConsumptionRecord/MeanProfileDay`.  A list
response with more than one entry exits the process; the response is
then subscripted with `[0]`; with `include_mean_profile` the result is
merged with `{"meanProfile": mp}` (which requires a dict). -/
def getConsumptionRecordsForDay (resp : Json) (includeMeanProfile : Bool) (mp : Json) :
    Except FetchStop Json := do
  match resp with
  | .arr xs => if 1 < xs.length then throw .abortMulti else pure ()
  | _ => pure ()
  if includeMeanProfile then
    let x ← pyIndexZero resp
    match x with
    | .obj kvs => return .obj (objSet kvs "meanProfile" mp)
    | _ => throw .crash
  else
    pyIndexZero resp

/-- Python truthiness, as tested by
`if not consumption_records["meteredValues"]`. -/
def pyTruthy (j : Json) : Bool :=
  match j with
  | .null => false
  | .bool b => b
  | .num q => decide (q ≠ 0)
  | .str s => !s.isEmpty
  | .arr xs => !xs.isEmpty
  | .obj kvs => !kvs.isEmpty

/-- How a run of `download_consumptions_for_meter` ends prematurely:
`sys.exit(1)` on a multi-record day response, or an uncaught exception. -/
inductive SyncStop where
  | abortMulti (day : ℤ) : SyncStop
  | crash (day : ℤ) : SyncStop
deriving DecidableEq

/-- The observable outcome of `download_consumptions_for_meter`.  Days
are modelled as integers (day ordinals; `start + timedelta(days=i)` is
`start + i`).  `fileDays` is the set of days whose `<date>.json` file
exists; `attempted` the days the loop body ran for; `fetches` the days a
`/ConsumptionRecord/Day` request was issued for; `writes` the days a
file was written for; `stop` is `none` iff the loop completed. -/
structure SyncResult where
  fileDays : List ℤ
  attempted : List ℤ
  fetches : List ℤ
  writes : List ℤ
  stop : Option SyncStop
deriving DecidableEq

/-- The day loop of `download_consumptions_for_meter`: skip a day whose
file exists; otherwise fetch it (always with `include_mean_profile`, the
default), skip without writing when `meteredValues` is falsy, else write
the file.  A fetch abort or an uncaught exception stops the process. -/
def syncDays (remote meanProf : ℤ → Json) (fileDays : List ℤ) : List ℤ → SyncResult
  | [] => ⟨fileDays, [], [], [], none⟩
  | d :: ds =>
    if d ∈ fileDays then
      let r := syncDays remote meanProf fileDays ds
      ⟨r.fileDays, d :: r.attempted, r.fetches, r.writes, r.stop⟩
    else
      match getConsumptionRecordsForDay (remote d) true (meanProf d) with
      | .error .abortMulti => ⟨fileDays, [d], [d], [], some (.abortMulti d)⟩
      | .error .crash => ⟨fileDays, [d], [d], [], some (.crash d)⟩
      | .ok rec =>
        match pyGetKey rec "meteredValues" with
        | .error _ => ⟨fileDays, [d], [d], [], some (.crash d)⟩
        | .ok v =>
          if pyTruthy v then
            let r := syncDays remote meanProf (d :: fileDays) ds
            ⟨r.fileDays, d :: r.attempted, d :: r.fetches, d :: r.writes, r.stop⟩
          else
            let r := syncDays remote meanProf fileDays ds
            ⟨r.fileDays, d :: r.attempted, d :: r.fetches, r.writes, r.stop⟩

/-- The day range of `download_consumptions_for_meter`:
`number_since_measure_start = (today - start_date).days` and
`[start_date + timedelta(days=i) for i in range(number)]` (an empty
range when the count is not positive). -/
def dayRange (startDate today : ℤ) : List ℤ :=
  (List.range (today - startDate).toNat).map (fun i : ℕ => startDate + (i : ℤ))

/-- `download_consumptions_for_meter`: run the day loop over the
computed day range. -/
def downloadConsumptionsForMeter (remote meanProf : ℤ → Json)
    (fileDays : List ℤ) (startDate today : ℤ) : SyncResult :=
  syncDays remote meanProf fileDays (dayRange startDate today)

/-! ## The whole fetcher run (`main` of `src/src/smartmeter.py`) -/

/-- How a whole fetcher run ends prematurely. -/
inductive RunStop where
  | maintenance (msg : String) : RunStop
  | httpError (status : Nat) : RunStop
  | sync (s : SyncStop) : RunStop
deriving DecidableEq

/-- `response.raise_for_status()`: raises for any status in [400, 600). -/
def raiseForStatus (status : Nat) : Option RunStop :=
  if 400 ≤ status ∧ status < 600 then some (.httpError status) else none

/-- `SmartMeter._login` (src/src version): `raise_for_status()` first
(status 999 is outside its range, so it passes), then the explicit
maintenance check `status_code == 999` which prints a diagnostic and
calls `sys.exit(1)`. -/
def loginStep (status : Nat) : Option RunStop :=
  match raiseForStatus status with
  | some s => some s
  | none =>
    if status = 999 then
      some (.maintenance "Smartmeter Platform dürfte wieder Wartungsarbeiten durchführen!")
    else none

/-- The observable outcome of one whole fetcher run: how many login
attempts and topology-discovery requests were issued, which
`(meter, day)` fetches happened, and how the run ended. -/
structure FetchRun where
  loginAttempts : Nat
  topologyRequests : Nat
  dayFetches : List (String × ℤ)
  stop : Option RunStop

/-- The loop of `main` over the discovered `(account_id, metering_point_id)`
pairs: each meter is synced in turn; a `sys.exit` or uncaught exception in
a sync stops the whole run. -/
def runMeters (remote meanProf : String → ℤ → Json) (fileDays : String → List ℤ)
    (startDate today : ℤ) : List (String × String) → (List (String × ℤ) × Option SyncStop)
  | [] => ([], none)
  | (_, meter) :: rest =>
    let r := downloadConsumptionsForMeter (remote meter) (meanProf meter)
      (fileDays meter) startDate today
    match r.stop with
    | some s => (r.fetches.map (fun d => (meter, d)), some s)
    | none =>
      let rec2 := runMeters remote meanProf fileDays startDate today rest
      (r.fetches.map (fun d => (meter, d)) ++ rec2.1, rec2.2)

/-- One whole fetcher run (`main`): construct the session (one `_login`,
then `_extend_session_lifetime`), discover the topology with
`get_consumption_info`, then sync every discovered meter.  A login or
session-extension failure stops the run before the topology request. -/
def runMain (loginStatus extendStatus : Nat) (topo : List (String × String))
    (remote meanProf : String → ℤ → Json) (fileDays : String → List ℤ)
    (startDate today : ℤ) : FetchRun :=
  match loginStep loginStatus with
  | some s => ⟨1, 0, [], some s⟩
  | none =>
    match raiseForStatus extendStatus with
    | some s => ⟨1, 0, [], some s⟩
    | none =>
      let r := runMeters remote meanProf fileDays startDate today topo
      ⟨1, 1, r.1, r.2.map RunStop.sync⟩

/-! ## Concrete inputs used by witnesses and counterexamples -/

/-- A well-formed day file built from six given sequences (the five value
sequences as JSON arrays, the peak-demand times as an array of strings). -/
def mkDayFile (pdt : List String) (mv ev pd ed mp : List Json) : Json :=
  .obj [("peakDemandTimes", .arr (pdt.map Json.str)),
        ("meteredValues", .arr mv),
        ("estimatedValues", .arr ev),
        ("meteredPeakDemands", .arr pd),
        ("estimatedPeakDemands", .arr ed),
        ("meanProfile", .arr mp)]

/-- A one-interval day file. -/
def c1File : Json := .obj [
  ("peakDemandTimes", .arr [.str "2024-01-01T00:00:00"]),
  ("meteredValues", .arr [.num 2]),
  ("estimatedValues", .arr [.null]),
  ("meteredPeakDemands", .arr [.num 3]),
  ("estimatedPeakDemands", .arr [.null]),
  ("meanProfile", .arr [.num 4])]

/-- The row `c1File` parses to. -/
def c1Row : Row := ⟨"2024-01-01T00:00:00", .num 2, .null, .num 3, .null, .num 4⟩

/-- A day file whose six sequences have differing lengths
(`meteredValues` has one entry, `peakDemandTimes` has two). -/
def c4File : Json := .obj [
  ("peakDemandTimes", .arr [.str "2023-05-01T00:00:00", .str "2023-05-01T00:15:00"]),
  ("meteredValues", .arr [.num 1]),
  ("estimatedValues", .arr [.num 2, .num 3]),
  ("meteredPeakDemands", .arr [.num 4, .num 5]),
  ("estimatedPeakDemands", .arr [.num 6, .num 7]),
  ("meanProfile", .arr [.num 8, .num 9])]

/-- A single consumption record object, as the day endpoint would embed
it in a one-element sequence. -/
def c5Rec : Json := .obj [
  ("meteredValues", .arr [.num 1]),
  ("peakDemandTimes", .arr [.str "2024-03-03T00:00:00"])]

/-- A day file with the five value sequences present but no
`meanProfile` key. -/
def c6File : Json := .obj [
  ("peakDemandTimes", .arr [.str "2023-07-01T00:00:00"]),
  ("meteredValues", .arr [.num 1]),
  ("estimatedValues", .arr [.num 2]),
  ("meteredPeakDemands", .arr [.num 3]),
  ("estimatedPeakDemands", .arr [.num 4])]

/-- A second day file without `meanProfile`, on a different day. -/
def c6wFile : Json := .obj [
  ("peakDemandTimes", .arr [.str "2024-02-02T00:00:00"]),
  ("meteredValues", .arr [.num 5]),
  ("estimatedValues", .arr [.num 6]),
  ("meteredPeakDemands", .arr [.num 7]),
  ("estimatedPeakDemands", .arr [.num 8])]

/-- A consumption record with a non-empty `meteredValues`. -/
def c7Rec : Json := .obj [("meteredValues", .arr [.num 1])]

/-- A remote whose day endpoint always returns two candidate records. -/
def c7Remote : ℤ → Json := fun _ => .arr [c7Rec, c7Rec]

/-- A mean-profile endpoint returning an empty object. -/
def c7MeanProf : ℤ → Json := fun _ => .obj []

/-- A consumption record with a non-empty `meteredValues`. -/
def c9Rec : Json := .obj [("meteredValues", .arr [.num 1])]

/-- A remote whose day endpoint always returns one good record. -/
def c9Remote : ℤ → Json := fun _ => .arr [c9Rec]

/-- A mean-profile endpoint returning an empty object. -/
def c9MeanProf : ℤ → Json := fun _ => .obj []

/-- A remote that is never called (empty day range). -/
def c10Remote : ℤ → Json := fun _ => .null

/-- The day file of §8 "Row correctness": `peakDemandTimes = [T1,T2]`,
`meteredValues = [1.1, 2.2]`, `estimatedValues = [0.1, 0.2]`,
`meteredPeakDemands = [5, 6]`, `estimatedPeakDemands = [0.5, 0.6]`,
`meanProfile = [9, 10]`. -/
def c8File : Json := .obj [
  ("peakDemandTimes", .arr [.str "2023-05-01T00:00:00", .str "2023-05-01T00:15:00"]),
  ("meteredValues", .arr [.num (11/10), .num (22/10)]),
  ("estimatedValues", .arr [.num (1/10), .num (2/10)]),
  ("meteredPeakDemands", .arr [.num 5, .num 6]),
  ("estimatedPeakDemands", .arr [.num (5/10), .num (6/10)]),
  ("meanProfile", .arr [.num 9, .num 10])]

/-! ## Lemmas about the store insert (`ON CONFLICT DO NOTHING`) -/

lemma mem_timestamps_iff_any (st : Store) (x : String) :
    x ∈ timestamps st ↔ st.any (fun r2 => r2.timestamp == x) = true := by
  simp [timestamps, List.any_eq_true, List.mem_map]

lemma insertRow_of_mem (st : Store) (r : Row) (h : r.timestamp ∈ timestamps st) :
    insertRow st r = st := by
  unfold insertRow
  rw [if_pos ((mem_timestamps_iff_any st r.timestamp).1 h)]

lemma mem_timestamps_insertRow (st : Store) (r : Row) (x : String)
    (h : x ∈ timestamps st) : x ∈ timestamps (insertRow st r) := by
  unfold insertRow
  split
  · exact h
  · simpa [timestamps] using Or.inl ((List.mem_map).1 h)

lemma self_mem_timestamps_insertRow (st : Store) (r : Row) :
    r.timestamp ∈ timestamps (insertRow st r) := by
  unfold insertRow
  split
  · exact (mem_timestamps_iff_any st r.timestamp).2 (by assumption)
  · simp [timestamps]

lemma nodup_timestamps_insertRow (st : Store) (r : Row)
    (h : (timestamps st).Nodup) : (timestamps (insertRow st r)).Nodup := by
  unfold insertRow
  split
  · exact h
  · rename_i hc
    have hnm : r.timestamp ∉ timestamps st := fun hm =>
      hc ((mem_timestamps_iff_any st r.timestamp).1 hm)
    have heq : timestamps (st ++ [r]) = timestamps st ++ [r.timestamp] := by
      simp [timestamps]
    rw [heq]
    refine List.Nodup.append h (List.nodup_singleton _) ?_
    intro a ha hb
    rw [List.mem_singleton] at hb
    subst hb
    exact hnm ha

lemma mem_timestamps_insertRows (rows : List Row) (st : Store) (x : String)
    (h : x ∈ timestamps st) : x ∈ timestamps (insertRows st rows) := by
  induction rows generalizing st with
  | nil => exact h
  | cons r rs ih =>
    exact ih (insertRow st r) (mem_timestamps_insertRow st r x h)

lemma forall_mem_timestamps_insertRows (rows : List Row) (st : Store) :
    ∀ r ∈ rows, r.timestamp ∈ timestamps (insertRows st rows) := by
  induction rows generalizing st with
  | nil => intro r hr; cases hr
  | cons r0 rs ih =>
    intro r hr
    have step : insertRows st (r0 :: rs) = insertRows (insertRow st r0) rs := rfl
    rw [step]
    rcases List.mem_cons.1 hr with h1 | h2
    · subst h1
      exact mem_timestamps_insertRows rs (insertRow st r) r.timestamp
        (self_mem_timestamps_insertRow st r)
    · exact ih (insertRow st r0) r h2

lemma insertRows_of_forall_mem (rows : List Row) (st : Store)
    (h : ∀ r ∈ rows, r.timestamp ∈ timestamps st) : insertRows st rows = st := by
  induction rows with
  | nil => rfl
  | cons r rs ih =>
    have h0 : insertRow st r = st := insertRow_of_mem st r (h r (by simp))
    calc insertRows st (r :: rs) = insertRows (insertRow st r) rs := rfl
      _ = insertRows st rs := by rw [h0]
      _ = st := ih (fun r2 h2 => h r2 (by simp [h2]))

lemma nodup_timestamps_insertRows (rows : List Row) (st : Store)
    (h : (timestamps st).Nodup) : (timestamps (insertRows st rows)).Nodup := by
  induction rows generalizing st with
  | nil => exact h
  | cons r rs ih => exact ih (insertRow st r) (nodup_timestamps_insertRow st r h)

/-! ## Lemmas about the importer -/

lemma importDayFile_ok (st : Store) (f : Json) (st1 : Store)
    (h : importDayFile st f = .ok st1) :
    ∃ rows, parseDayFile f = .ok rows ∧ st1 = insertRows st rows := by
  unfold importDayFile at h
  cases hp : parseDayFile f with
  | error e => rw [hp] at h; simp [Except.map] at h
  | ok rows =>
    rw [hp] at h
    simp [Except.map] at h
    exact ⟨rows, rfl, h.symm⟩

lemma importMeterDir_mono (fs : List Json) (st st1 : Store)
    (h : importMeterDir st fs = .ok st1) :
    ∀ x ∈ timestamps st, x ∈ timestamps st1 := by
  induction fs generalizing st with
  | nil =>
    intro x hx
    simp [importMeterDir] at h
    rwa [← h]
  | cons f fs ih =>
    intro x hx
    simp only [importMeterDir, bind, Except.bind] at h
    cases h1 : importDayFile st f with
    | error e => rw [h1] at h; cases h
    | ok st2 =>
      rw [h1] at h
      obtain ⟨rows, _, hst2⟩ := importDayFile_ok st f st2 h1
      exact ih st2 h x (hst2 ▸ mem_timestamps_insertRows rows st x hx)

lemma importMeterDir_idem (fs : List Json) (st st1 : Store)
    (h : importMeterDir st fs = .ok st1) : importMeterDir st1 fs = .ok st1 := by
  induction fs generalizing st with
  | nil =>
    simp [importMeterDir] at h
    subst h
    rfl
  | cons f fs ih =>
    simp only [importMeterDir, bind, Except.bind] at h ⊢
    cases h1 : importDayFile st f with
    | error e => rw [h1] at h; cases h
    | ok st2 =>
      rw [h1] at h
      obtain ⟨rows, hrows, hst2⟩ := importDayFile_ok st f st2 h1
      have hcov : ∀ r ∈ rows, r.timestamp ∈ timestamps st1 := fun r hr =>
        importMeterDir_mono fs st2 st1 h r.timestamp
          (hst2 ▸ forall_mem_timestamps_insertRows rows st r hr)
      have h2 : importDayFile st1 f = .ok st1 := by
        unfold importDayFile
        rw [hrows]
        simp [Except.map, insertRows_of_forall_mem rows st1 hcov]
      rw [h2]
      exact ih st2 h

lemma importMeterDir_nodup (fs : List Json) (st st1 : Store)
    (h : importMeterDir st fs = .ok st1) (hn : (timestamps st).Nodup) :
    (timestamps st1).Nodup := by
  induction fs generalizing st with
  | nil =>
    simp [importMeterDir] at h
    rwa [← h]
  | cons f fs ih =>
    simp only [importMeterDir, bind, Except.bind] at h
    cases h1 : importDayFile st f with
    | error e => rw [h1] at h; cases h
    | ok st2 =>
      rw [h1] at h
      obtain ⟨rows, _, hst2⟩ := importDayFile_ok st f st2 h1
      exact ih st2 h (hst2 ▸ nodup_timestamps_insertRows rows st hn)

lemma importAll_idem (dirs : List (Store × List Json)) (sts : List Store)
    (h : importAll dirs = .ok sts) :
    importAll (sts.zip (dirs.map Prod.snd)) = .ok sts := by
  induction dirs generalizing sts with
  | nil =>
    simp [importAll] at h
    subst h
    rfl
  | cons p rest ih =>
    obtain ⟨st, fs⟩ := p
    simp only [importAll, bind, Except.bind] at h
    cases h1 : importMeterDir st fs with
    | error e => rw [h1] at h; cases h
    | ok st1 =>
      rw [h1] at h
      cases h2 : importAll rest with
      | error e => rw [h2] at h; cases h
      | ok sts2 =>
        rw [h2] at h
        simp [pure, Except.pure] at h
        subst h
        show importAll ((st1, fs) :: sts2.zip (rest.map Prod.snd)) = .ok (st1 :: sts2)
        simp only [importAll, bind, Except.bind]
        rw [importMeterDir_idem fs st st1 h1, ih sts2 h2]
        rfl

/-! ## Lemmas about the day loop of `download_consumptions_for_meter` -/

lemma syncDays_nil (remote meanProf : ℤ → Json) (fs : List ℤ) :
    syncDays remote meanProf fs [] = ⟨fs, [], [], [], none⟩ := rfl

lemma syncDays_cons_mem (remote meanProf : ℤ → Json) (fs : List ℤ) (d : ℤ)
    (ds : List ℤ) (h : d ∈ fs) :
    syncDays remote meanProf fs (d :: ds) =
      ⟨(syncDays remote meanProf fs ds).fileDays,
       d :: (syncDays remote meanProf fs ds).attempted,
       (syncDays remote meanProf fs ds).fetches,
       (syncDays remote meanProf fs ds).writes,
       (syncDays remote meanProf fs ds).stop⟩ := by
  simp [syncDays, h]

lemma syncDays_cons_abort (remote meanProf : ℤ → Json) (fs : List ℤ) (d : ℤ)
    (ds : List ℤ) (h : d ∉ fs)
    (hg : getConsumptionRecordsForDay (remote d) true (meanProf d) = .error .abortMulti) :
    syncDays remote meanProf fs (d :: ds) = ⟨fs, [d], [d], [], some (.abortMulti d)⟩ := by
  simp [syncDays, h, hg]

lemma syncDays_cons_crash (remote meanProf : ℤ → Json) (fs : List ℤ) (d : ℤ)
    (ds : List ℤ) (h : d ∉ fs)
    (hg : getConsumptionRecordsForDay (remote d) true (meanProf d) = .error .crash) :
    syncDays remote meanProf fs (d :: ds) = ⟨fs, [d], [d], [], some (.crash d)⟩ := by
  simp [syncDays, h, hg]

lemma syncDays_cons_keyerr (remote meanProf : ℤ → Json) (fs : List ℤ) (d : ℤ)
    (ds : List ℤ) (rec : Json) (e : ImpErr) (h : d ∉ fs)
    (hg : getConsumptionRecordsForDay (remote d) true (meanProf d) = .ok rec)
    (hk : pyGetKey rec "meteredValues" = .error e) :
    syncDays remote meanProf fs (d :: ds) = ⟨fs, [d], [d], [], some (.crash d)⟩ := by
  simp [syncDays, h, hg, hk]

lemma syncDays_cons_write (remote meanProf : ℤ → Json) (fs : List ℤ) (d : ℤ)
    (ds : List ℤ) (rec v : Json) (h : d ∉ fs)
    (hg : getConsumptionRecordsForDay (remote d) true (meanProf d) = .ok rec)
    (hk : pyGetKey rec "meteredValues" = .ok v) (ht : pyTruthy v = true) :
    syncDays remote meanProf fs (d :: ds) =
      ⟨(syncDays remote meanProf (d :: fs) ds).fileDays,
       d :: (syncDays remote meanProf (d :: fs) ds).attempted,
       d :: (syncDays remote meanProf (d :: fs) ds).fetches,
       d :: (syncDays remote meanProf (d :: fs) ds).writes,
       (syncDays remote meanProf (d :: fs) ds).stop⟩ := by
  simp [syncDays, h, hg, hk, ht]

lemma syncDays_cons_skip (remote meanProf : ℤ → Json) (fs : List ℤ) (d : ℤ)
    (ds : List ℤ) (rec v : Json) (h : d ∉ fs)
    (hg : getConsumptionRecordsForDay (remote d) true (meanProf d) = .ok rec)
    (hk : pyGetKey rec "meteredValues" = .ok v) (ht : pyTruthy v = false) :
    syncDays remote meanProf fs (d :: ds) =
      ⟨(syncDays remote meanProf fs ds).fileDays,
       d :: (syncDays remote meanProf fs ds).attempted,
       d :: (syncDays remote meanProf fs ds).fetches,
       (syncDays remote meanProf fs ds).writes,
       (syncDays remote meanProf fs ds).stop⟩ := by
  simp [syncDays, h, hg, hk, ht]

lemma syncDays_fileDays_mono (remote meanProf : ℤ → Json) (days : List ℤ)
    (fs : List ℤ) (d : ℤ) (h : d ∈ fs) :
    d ∈ (syncDays remote meanProf fs days).fileDays := by
  induction days generalizing fs with
  | nil => exact h
  | cons e ds ih =>
    by_cases he : e ∈ fs
    · rw [syncDays_cons_mem remote meanProf fs e ds he]
      exact ih fs h
    · cases hg : getConsumptionRecordsForDay (remote e) true (meanProf e) with
      | error err =>
        cases err with
        | abortMulti => rw [syncDays_cons_abort remote meanProf fs e ds he hg]; exact h
        | crash => rw [syncDays_cons_crash remote meanProf fs e ds he hg]; exact h
      | ok rec =>
        cases hk : pyGetKey rec "meteredValues" with
        | error err =>
          rw [syncDays_cons_keyerr remote meanProf fs e ds rec err he hg hk]
          exact h
        | ok v =>
          cases ht : pyTruthy v with
          | true =>
            rw [syncDays_cons_write remote meanProf fs e ds rec v he hg hk ht]
            exact ih (e :: fs) (List.mem_cons_of_mem e h)
          | false =>
            rw [syncDays_cons_skip remote meanProf fs e ds rec v he hg hk ht]
            exact ih fs h

lemma syncDays_existing_untouched (remote meanProf : ℤ → Json) (days : List ℤ)
    (fs : List ℤ) (d : ℤ) (h : d ∈ fs) :
    d ∉ (syncDays remote meanProf fs days).fetches ∧
    d ∉ (syncDays remote meanProf fs days).writes := by
  induction days generalizing fs with
  | nil => exact ⟨List.not_mem_nil d, List.not_mem_nil d⟩
  | cons e ds ih =>
    by_cases he : e ∈ fs
    · rw [syncDays_cons_mem remote meanProf fs e ds he]
      exact ih fs h
    · have hne : d ≠ e := fun hde => he (hde ▸ h)
      cases hg : getConsumptionRecordsForDay (remote e) true (meanProf e) with
      | error err =>
        cases err with
        | abortMulti =>
          rw [syncDays_cons_abort remote meanProf fs e ds he hg]
          exact ⟨by simp [hne], List.not_mem_nil d⟩
        | crash =>
          rw [syncDays_cons_crash remote meanProf fs e ds he hg]
          exact ⟨by simp [hne], List.not_mem_nil d⟩
      | ok rec =>
        cases hk : pyGetKey rec "meteredValues" with
        | error err =>
          rw [syncDays_cons_keyerr remote meanProf fs e ds rec err he hg hk]
          exact ⟨by simp [hne], List.not_mem_nil d⟩
        | ok v =>
          cases ht : pyTruthy v with
          | true =>
            rw [syncDays_cons_write remote meanProf fs e ds rec v he hg hk ht]
            have := ih (e :: fs) (List.mem_cons_of_mem e h)
            exact ⟨by simp [hne, this.1], by simp [hne, this.2]⟩
          | false =>
            rw [syncDays_cons_skip remote meanProf fs e ds rec v he hg hk ht]
            have := ih fs h
            exact ⟨by simp [hne, this.1], this.2⟩

lemma syncDays_second_run_no_writes (remote meanProf : ℤ → Json) (days : List ℤ)
    (fs : List ℤ) :
    (syncDays remote meanProf (syncDays remote meanProf fs days).fileDays days).writes
      = [] := by
  induction days generalizing fs with
  | nil => rfl
  | cons d ds ih =>
    by_cases hd : d ∈ fs
    · rw [syncDays_cons_mem remote meanProf fs d ds hd]
      have hdF : d ∈ (syncDays remote meanProf fs ds).fileDays :=
        syncDays_fileDays_mono remote meanProf ds fs d hd
      rw [syncDays_cons_mem remote meanProf _ d ds hdF]
      exact ih fs
    · cases hg : getConsumptionRecordsForDay (remote d) true (meanProf d) with
      | error err =>
        cases err with
        | abortMulti =>
          rw [syncDays_cons_abort remote meanProf fs d ds hd hg]
          rw [syncDays_cons_abort remote meanProf fs d ds hd hg]
        | crash =>
          rw [syncDays_cons_crash remote meanProf fs d ds hd hg]
          rw [syncDays_cons_crash remote meanProf fs d ds hd hg]
      | ok rec =>
        cases hk : pyGetKey rec "meteredValues" with
        | error err =>
          rw [syncDays_cons_keyerr remote meanProf fs d ds rec err hd hg hk]
          rw [syncDays_cons_keyerr remote meanProf fs d ds rec err hd hg hk]
        | ok v =>
          cases ht : pyTruthy v with
          | true =>
            rw [syncDays_cons_write remote meanProf fs d ds rec v hd hg hk ht]
            have hdF : d ∈ (syncDays remote meanProf (d :: fs) ds).fileDays :=
              syncDays_fileDays_mono remote meanProf ds (d :: fs) d (List.mem_cons_self d fs)
            rw [syncDays_cons_mem remote meanProf _ d ds hdF]
            exact ih (d :: fs)
          | false =>
            rw [syncDays_cons_skip remote meanProf fs d ds rec v hd hg hk ht]
            by_cases hdF : d ∈ (syncDays remote meanProf fs ds).fileDays
            · rw [syncDays_cons_mem remote meanProf _ d ds hdF]
              exact ih fs
            · rw [syncDays_cons_skip remote meanProf _ d ds rec v hdF hg hk ht]
              exact ih fs

lemma getConsumptionRecordsForDay_multi (xs : List Json) (mp : Json)
    (h : 2 ≤ xs.length) (incl : Bool) :
    getConsumptionRecordsForDay (.arr xs) incl mp = .error .abortMulti := by
  have h1 : 1 < xs.length := h
  simp [getConsumptionRecordsForDay, h1, throw, throwThe, MonadExceptOf.throw, bind, Except.bind]

lemma syncDays_multi_no_write (remote meanProf : ℤ → Json) (days : List ℤ)
    (fs : List ℤ) (d : ℤ) (xs : List Json)
    (hr : remote d = .arr xs) (hlen : 2 ≤ xs.length)
    (hmem : d ∈ days) (hfs : d ∉ fs) :
    (syncDays remote meanProf fs days).stop.isSome = true ∧
    d ∉ (syncDays remote meanProf fs days).writes ∧
    d ∉ (syncDays remote meanProf fs days).fileDays := by
  have habort : getConsumptionRecordsForDay (remote d) true (meanProf d)
      = .error .abortMulti := by
    rw [hr]
    exact getConsumptionRecordsForDay_multi xs (meanProf d) hlen true
  clear hr
  revert hmem
  revert hfs
  revert fs
  induction days with
  | nil =>
    intro fs hfs hmem
    cases hmem
  | cons e ds ih =>
    intro fs hfs hmem
    by_cases hed : e = d
    · subst hed
      rw [syncDays_cons_abort remote meanProf fs e ds hfs habort]
      exact ⟨rfl, List.not_mem_nil e, hfs⟩
    · have hmem2 : d ∈ ds := by
        rcases List.mem_cons.1 hmem with h1 | h2
        · exact absurd h1.symm hed
        · exact h2
      by_cases he : e ∈ fs
      · rw [syncDays_cons_mem remote meanProf fs e ds he]
        exact ih fs hfs hmem2
      · cases hg : getConsumptionRecordsForDay (remote e) true (meanProf e) with
        | error err =>
          cases err with
          | abortMulti =>
            rw [syncDays_cons_abort remote meanProf fs e ds he hg]
            exact ⟨rfl, List.not_mem_nil d, hfs⟩
          | crash =>
            rw [syncDays_cons_crash remote meanProf fs e ds he hg]
            exact ⟨rfl, List.not_mem_nil d, hfs⟩
        | ok rec =>
          cases hk : pyGetKey rec "meteredValues" with
          | error err =>
            rw [syncDays_cons_keyerr remote meanProf fs e ds rec err he hg hk]
            exact ⟨rfl, List.not_mem_nil d, hfs⟩
          | ok v =>
            cases ht : pyTruthy v with
            | true =>
              rw [syncDays_cons_write remote meanProf fs e ds rec v he hg hk ht]
              have hfs2 : d ∉ e :: fs := by
                intro hin
                rcases List.mem_cons.1 hin with h1 | h2
                · exact hed h1.symm
                · exact hfs h2
              have := ih (e :: fs) hfs2 hmem2
              refine ⟨this.1, ?_, this.2.2⟩
              intro hin
              rcases List.mem_cons.1 hin with h1 | h2
              · exact hed h1.symm
              · exact this.2.1 h2
            | false =>
              rw [syncDays_cons_skip remote meanProf fs e ds rec v he hg hk ht]
              exact ih fs hfs hmem2

lemma syncDays_attempted_subset (remote meanProf : ℤ → Json) (days fs : List ℤ) :
    ∀ d ∈ (syncDays remote meanProf fs days).attempted, d ∈ days := by
  induction days generalizing fs with
  | nil => intro d hd; cases hd
  | cons e ds ih =>
    intro d hd
    by_cases he : e ∈ fs
    · rw [syncDays_cons_mem remote meanProf fs e ds he] at hd
      rcases List.mem_cons.1 hd with h1 | h2
      · simp [h1]
      · exact List.mem_cons_of_mem e (ih fs d h2)
    · cases hg : getConsumptionRecordsForDay (remote e) true (meanProf e) with
      | error err =>
        cases err with
        | abortMulti =>
          rw [syncDays_cons_abort remote meanProf fs e ds he hg] at hd
          rcases List.mem_singleton.1 hd with h1
          simp [h1]
        | crash =>
          rw [syncDays_cons_crash remote meanProf fs e ds he hg] at hd
          rcases List.mem_singleton.1 hd with h1
          simp [h1]
      | ok rec =>
        cases hk : pyGetKey rec "meteredValues" with
        | error err =>
          rw [syncDays_cons_keyerr remote meanProf fs e ds rec err he hg hk] at hd
          rcases List.mem_singleton.1 hd with h1
          simp [h1]
        | ok v =>
          cases ht : pyTruthy v with
          | true =>
            rw [syncDays_cons_write remote meanProf fs e ds rec v he hg hk ht] at hd
            rcases List.mem_cons.1 hd with h1 | h2
            · simp [h1]
            · exact List.mem_cons_of_mem e (ih (e :: fs) d h2)
          | false =>
            rw [syncDays_cons_skip remote meanProf fs e ds rec v he hg hk ht] at hd
            rcases List.mem_cons.1 hd with h1 | h2
            · simp [h1]
            · exact List.mem_cons_of_mem e (ih fs d h2)

lemma syncDays_attempted_of_complete (remote meanProf : ℤ → Json) (days fs : List ℤ)
    (h : (syncDays remote meanProf fs days).stop = none) :
    (syncDays remote meanProf fs days).attempted = days := by
  induction days generalizing fs with
  | nil => rfl
  | cons e ds ih =>
    by_cases he : e ∈ fs
    · rw [syncDays_cons_mem remote meanProf fs e ds he] at h ⊢
      exact congrArg (e :: ·) (ih fs h)
    · cases hg : getConsumptionRecordsForDay (remote e) true (meanProf e) with
      | error err =>
        cases err with
        | abortMulti =>
          rw [syncDays_cons_abort remote meanProf fs e ds he hg] at h
          cases h
        | crash =>
          rw [syncDays_cons_crash remote meanProf fs e ds he hg] at h
          cases h
      | ok rec =>
        cases hk : pyGetKey rec "meteredValues" with
        | error err =>
          rw [syncDays_cons_keyerr remote meanProf fs e ds rec err he hg hk] at h
          cases h
        | ok v =>
          cases ht : pyTruthy v with
          | true =>
            rw [syncDays_cons_write remote meanProf fs e ds rec v he hg hk ht] at h ⊢
            exact congrArg (e :: ·) (ih (e :: fs) h)
          | false =>
            rw [syncDays_cons_skip remote meanProf fs e ds rec v he hg hk ht] at h ⊢
            exact congrArg (e :: ·) (ih fs h)

/-! ## Lemmas about the day-file parser -/

lemma parseTimestamps_map_str (ts : List String) :
    parseTimestamps (ts.map Json.str) = .ok ts := by
  induction ts with
  | nil => rfl
  | cons t ts ih =>
    simp [parseTimestamps, parseTimestamp, ih, bind, Except.bind, pure, Except.pure]

lemma zip6_nil1 (a b c d e : List Json) : zip6 [] a b c d e = [] := rfl

lemma zip6_nil2 (ts : List String) (b c d e : List Json) : zip6 ts [] b c d e = [] := by
  cases ts <;> rfl

lemma zip6_nil3 (ts : List String) (a c d e : List Json) : zip6 ts a [] c d e = [] := by
  cases ts <;> cases a <;> rfl

lemma zip6_nil4 (ts : List String) (a b d e : List Json) : zip6 ts a b [] d e = [] := by
  cases ts <;> cases a <;> cases b <;> rfl

lemma zip6_nil5 (ts : List String) (a b c e : List Json) : zip6 ts a b c [] e = [] := by
  cases ts <;> cases a <;> cases b <;> cases c <;> rfl

lemma zip6_nil6 (ts : List String) (a b c d : List Json) : zip6 ts a b c d [] = [] := by
  cases ts <;> cases a <;> cases b <;> cases c <;> cases d <;> rfl

lemma zip6_cons (t : String) (ts : List String) (a0 b0 c0 d0 e0 : Json)
    (a1 b1 c1 d1 e1 : List Json) :
    zip6 (t :: ts) (a0 :: a1) (b0 :: b1) (c0 :: c1) (d0 :: d1) (e0 :: e1)
      = ⟨t, a0, b0, c0, d0, e0⟩ :: zip6 ts a1 b1 c1 d1 e1 := rfl

lemma pyGetKey_mkDayFile1 (pdt : List String) (mv ev pd ed mp : List Json) :
    pyGetKey (mkDayFile pdt mv ev pd ed mp) "peakDemandTimes"
      = .ok (.arr (pdt.map Json.str)) := rfl

lemma pyGetKey_mkDayFile2 (pdt : List String) (mv ev pd ed mp : List Json) :
    pyGetKey (mkDayFile pdt mv ev pd ed mp) "meteredValues" = .ok (.arr mv) := rfl

lemma pyGetKey_mkDayFile3 (pdt : List String) (mv ev pd ed mp : List Json) :
    pyGetKey (mkDayFile pdt mv ev pd ed mp) "estimatedValues" = .ok (.arr ev) := rfl

lemma pyGetKey_mkDayFile4 (pdt : List String) (mv ev pd ed mp : List Json) :
    pyGetKey (mkDayFile pdt mv ev pd ed mp) "meteredPeakDemands" = .ok (.arr pd) := rfl

lemma pyGetKey_mkDayFile5 (pdt : List String) (mv ev pd ed mp : List Json) :
    pyGetKey (mkDayFile pdt mv ev pd ed mp) "estimatedPeakDemands" = .ok (.arr ed) := rfl

lemma pyGetKey_mkDayFile6 (pdt : List String) (mv ev pd ed mp : List Json) :
    pyGetKey (mkDayFile pdt mv ev pd ed mp) "meanProfile" = .ok (.arr mp) := rfl

set_option maxHeartbeats 1000000 in
lemma zip6_length (ts : List String) (a b c d e : List Json) :
    (zip6 ts a b c d e).length
      = min (min (min (min (min ts.length a.length) b.length) c.length) d.length)
          e.length := by
  induction ts generalizing a b c d e with
  | nil =>
    rw [zip6_nil1]
    simp
  | cons t ts ih =>
    cases a with
    | nil => rw [zip6_nil2]; simp
    | cons a0 a1 =>
      cases b with
      | nil => rw [zip6_nil3]; simp
      | cons b0 b1 =>
        cases c with
        | nil => rw [zip6_nil4]; simp
        | cons c0 c1 =>
          cases d with
          | nil => rw [zip6_nil5]; simp
          | cons d0 d1 =>
            cases e with
            | nil => rw [zip6_nil6]; simp
            | cons e0 e1 =>
              rw [zip6_cons]
              simp only [List.length_cons, ih a1 b1 c1 d1 e1]
              omega

/-! ## Lemmas about the day range -/

lemma dayRange_of_le (startDate today : ℤ) (h : today ≤ startDate) :
    dayRange startDate today = [] := by
  have : (today - startDate).toNat = 0 := by omega
  simp [dayRange, this]

lemma dayRange_add (startDate : ℤ) (n : ℕ) :
    dayRange startDate (startDate + n)
      = (List.range n).map (fun i : ℕ => startDate + (i : ℤ)) := by
  have : (startDate + (n : ℤ) - startDate).toNat = n := by omega
  simp [dayRange, this]

lemma dayRange_sorted (startDate today : ℤ) :
    (dayRange startDate today).Sorted (· < ·) := by
  show ((List.range (today - startDate).toNat).map
    (fun i : ℕ => startDate + (i : ℤ))).Pairwise (· < ·)
  refine List.Pairwise.map _ ?_ (List.pairwise_lt_range _)
  intro a b hab
  omega

lemma today_not_mem_dayRange (startDate today : ℤ) :
    today ∉ dayRange startDate today := by
  intro hmem
  simp only [dayRange, List.mem_map, List.mem_range] at hmem
  obtain ⟨i, hi, he⟩ := hmem
  omega

/-! ## Claim theorems -/

/-- C1: for every store state and every set of day files, running
`import_data` twice over the same files yields the same store contents
(hence the same row count) as running it once; the store keeps at most
one row per unique timestamp; and inserting a row whose timestamp is
already present leaves the store unchanged (a no-op, never an update,
never a duplicate). -/
theorem c1_import_idempotent (dirs : List (Store × List Json)) (sts : List Store)
    (h : importAll dirs = .ok sts) :
    importAll (sts.zip (dirs.map Prod.snd)) = .ok sts
    ∧ (∀ (st : Store) (r : Row), r.timestamp ∈ timestamps st → insertRow st r = st)
    ∧ ∀ (st st1 : Store) (fs : List Json),
        importMeterDir st fs = .ok st1 → (timestamps st).Nodup → (timestamps st1).Nodup :=
  ⟨importAll_idem dirs sts h,
   fun st r hm => insertRow_of_mem st r hm,
   fun st st1 fs h2 hn => importMeterDir_nodup fs st st1 h2 hn⟩

/-- Witness for C1: importing `c1File` into an empty store succeeds, and
re-running `import_data` over the resulting store and the same file
reproduces it exactly. -/
theorem c1_import_idempotent_witness :
    importAll ([[c1Row]].zip ([(([] : Store), [c1File])].map Prod.snd)) = .ok [[c1Row]] :=
  (c1_import_idempotent [(([] : Store), [c1File])] [[c1Row]] (by rfl)).1

/-- C2: a login response with the distinguished maintenance status 999
stops the whole run at once with the diagnostic message: exactly one
login attempt (no retry), zero topology-discovery requests and zero day
fetches. -/
theorem c2_maintenance_halts (extendStatus : Nat) (topo : List (String × String))
    (remote meanProf : String → ℤ → Json) (fileDays : String → List ℤ)
    (startDate today : ℤ) :
    runMain 999 extendStatus topo remote meanProf fileDays startDate today =
      ⟨1, 0, [],
       some (.maintenance "Smartmeter Platform dürfte wieder Wartungsarbeiten durchführen!")⟩ :=
  rfl

/-- C3: for a start date `D` and current date `D + n` with `n ≥ 1`, the
day range `download_consumptions_for_meter` iterates is exactly the `n`
days `D, D+1, …, D+n-1`, strictly ascending, and never contains the
current date; a completed run attempts exactly that range, and even a
stopped run never attempts the current date. -/
theorem c3_day_range_correct (D : ℤ) (n : ℕ) (h : 1 ≤ n) :
    dayRange D (D + (n : ℤ)) = (List.range n).map (fun i : ℕ => D + (i : ℤ))
    ∧ (dayRange D (D + (n : ℤ))).Sorted (· < ·)
    ∧ (D + (n : ℤ)) ∉ dayRange D (D + (n : ℤ))
    ∧ (∀ remote meanProf fileDays,
        (downloadConsumptionsForMeter remote meanProf fileDays D (D + (n : ℤ))).stop = none →
        (downloadConsumptionsForMeter remote meanProf fileDays D (D + (n : ℤ))).attempted
          = dayRange D (D + (n : ℤ)))
    ∧ ∀ remote meanProf fileDays,
        (D + (n : ℤ))
          ∉ (downloadConsumptionsForMeter remote meanProf fileDays D (D + (n : ℤ))).attempted :=
  ⟨dayRange_add D n, dayRange_sorted D _, today_not_mem_dayRange D _,
   fun remote meanProf fileDays h2 =>
     syncDays_attempted_of_complete remote meanProf _ fileDays h2,
   fun remote meanProf fileDays hmem =>
     today_not_mem_dayRange D _
       (syncDays_attempted_subset remote meanProf _ fileDays _ hmem)⟩

/-- Witness for C3: with `D = 0` and today `D + 5`, the range is exactly
`[0, 1, 2, 3, 4]` and today is not in it. -/
theorem c3_day_range_correct_witness :
    dayRange 0 (0 + ((5 : ℕ) : ℤ)) = [0, 1, 2, 3, 4]
    ∧ (0 + ((5 : ℕ) : ℤ)) ∉ dayRange 0 (0 + ((5 : ℕ) : ℤ)) :=
  ⟨((c3_day_range_correct 0 5 (by decide)).1).trans (by rfl),
   (c3_day_range_correct 0 5 (by decide)).2.2.1⟩

/-- C4 counterexample: importing the length-mismatched day file `c4File`
(`meteredValues` shorter than `peakDemandTimes`) is not a fatal parse
error — it succeeds and imports the one zipped row. -/
theorem c4_counterexample :
    importDayFile [] c4File
      = .ok [⟨"2023-05-01T00:00:00", .num 1, .num 2, .num 4, .num 6, .num 8⟩] :=
  rfl

/-- C4 (amended): a day file whose six sequences have differing lengths
is not rejected: `import_data` zips the sequences positionally,
truncating to the shortest one, and imports exactly that many rows. -/
theorem c4_truncation (st : Store) (pdt : List String) (mv ev pd ed mp : List Json) :
    importDayFile st (mkDayFile pdt mv ev pd ed mp)
      = .ok (insertRows st (zip6 pdt mv ev pd ed mp))
    ∧ (zip6 pdt mv ev pd ed mp).length
      = min (min (min (min (min pdt.length mv.length) ev.length) pd.length) ed.length)
          mp.length := by
  constructor
  · simp [importDayFile, parseDayFile, pyGetKey_mkDayFile1, pyGetKey_mkDayFile2,
      pyGetKey_mkDayFile3, pyGetKey_mkDayFile4, pyGetKey_mkDayFile5,
      pyGetKey_mkDayFile6, pyIterate, parseTimestamps_map_str, bind, Except.bind,
      pure, Except.pure, Except.map]
  · exact zip6_length pdt mv ev pd ed mp

/-- C5: on a single-record-object day response the src/src version of
`get_consumption_records_for_day` crashes (the unconditional `[0]`
subscript raises `KeyError` on a string-keyed dict) instead of producing
the record; the single-element sequence shape works. -/
theorem c5_single_object_crashes :
    getConsumptionRecordsForDay c5Rec true (.obj []) = .error .crash
    ∧ getConsumptionRecordsForDay (.arr [c5Rec]) true (.obj [])
        = .ok (.obj [
            ("meteredValues", .arr [.num 1]),
            ("peakDemandTimes", .arr [.str "2024-03-03T00:00:00"]),
            ("meanProfile", .obj [])]) :=
  ⟨rfl, rfl⟩

/-- C6 counterexample: importing `c6File`, which has the five required
sequences but no `meanProfile` key, does not succeed — the importer
raises `KeyError("meanProfile")`. -/
theorem c6_counterexample :
    importDayFile [] c6File = .error (.keyError "meanProfile") :=
  rfl

/-- C6 (amended): `meanProfile` is required by the importer.  For any
day file whose `peakDemandTimes` is an array of strings and whose four
other value keys are present, a missing `meanProfile` key makes the
whole import fail with a KeyError on meanProfile; no rows are imported. -/
theorem c6_mean_profile_required (st : Store) (f : Json) (pdt : List String)
    (mvJ evJ pdJ edJ : Json)
    (h1 : pyGetKey f "peakDemandTimes" = .ok (.arr (pdt.map Json.str)))
    (h2 : pyGetKey f "meteredValues" = .ok mvJ)
    (h3 : pyGetKey f "estimatedValues" = .ok evJ)
    (h4 : pyGetKey f "meteredPeakDemands" = .ok pdJ)
    (h5 : pyGetKey f "estimatedPeakDemands" = .ok edJ)
    (h6 : pyGetKey f "meanProfile" = .error (.keyError "meanProfile")) :
    importDayFile st f = .error (.keyError "meanProfile") := by
  simp [importDayFile, parseDayFile, h1, h2, h3, h4, h5, h6, pyIterate,
    parseTimestamps_map_str, bind, Except.bind, Except.map]

/-- Witness for C6 (amended): the file `c6wFile` satisfies the
hypotheses and its import fails with `KeyError("meanProfile")`. -/
theorem c6_mean_profile_required_witness :
    importDayFile [] c6wFile = .error (.keyError "meanProfile") :=
  c6_mean_profile_required [] c6wFile ["2024-02-02T00:00:00"]
    (.arr [.num 5]) (.arr [.num 6]) (.arr [.num 7]) (.arr [.num 8])
    rfl rfl rfl rfl rfl rfl

/-- C7: when the day endpoint returns a sequence of two or more
candidate records for an uncovered day in the range, the fetch aborts
inside `get_consumption_records_for_day` (`sys.exit(1)`), the run stops,
and no file is ever written for that day. -/
theorem c7_multi_record_aborts (remote meanProf : ℤ → Json) (fileDays : List ℤ)
    (startDate today d : ℤ) (xs : List Json)
    (hr : remote d = .arr xs) (hlen : 2 ≤ xs.length)
    (hmem : d ∈ dayRange startDate today) (hfs : d ∉ fileDays) :
    getConsumptionRecordsForDay (remote d) true (meanProf d) = .error .abortMulti
    ∧ (downloadConsumptionsForMeter remote meanProf fileDays startDate today).stop.isSome
        = true
    ∧ d ∉ (downloadConsumptionsForMeter remote meanProf fileDays startDate today).writes
    ∧ d ∉ (downloadConsumptionsForMeter remote meanProf fileDays startDate today).fileDays := by
  have h1 : getConsumptionRecordsForDay (remote d) true (meanProf d)
      = .error .abortMulti := by
    rw [hr]
    exact getConsumptionRecordsForDay_multi xs (meanProf d) hlen true
  have h2 := syncDays_multi_no_write remote meanProf (dayRange startDate today)
    fileDays d xs hr hlen hmem hfs
  exact ⟨h1, h2.1, h2.2.1, h2.2.2⟩

/-- Witness for C7: a remote returning two candidate records for day 0
in the range of start date 0 and current date 1 makes the run stop
without writing day 0's file. -/
theorem c7_multi_record_aborts_witness :
    getConsumptionRecordsForDay (c7Remote 0) true (c7MeanProf 0) = .error .abortMulti
    ∧ (downloadConsumptionsForMeter c7Remote c7MeanProf [] 0 1).stop.isSome = true
    ∧ (0 : ℤ) ∉ (downloadConsumptionsForMeter c7Remote c7MeanProf [] 0 1).writes
    ∧ (0 : ℤ) ∉ (downloadConsumptionsForMeter c7Remote c7MeanProf [] 0 1).fileDays :=
  c7_multi_record_aborts c7Remote c7MeanProf [] 0 1 0 [c7Rec, c7Rec]
    rfl (by decide) (by decide) (by decide)

/-- C8: importing the §8 "Row correctness" day record into an empty
store produces exactly the two rows obtained by zipping the six
sequences positionally. -/
theorem c8_row_correctness :
    importDayFile [] c8File = .ok
      [⟨"2023-05-01T00:00:00", .num (11/10), .num (1/10), .num 5, .num (5/10), .num 9⟩,
       ⟨"2023-05-01T00:15:00", .num (22/10), .num (2/10), .num 6, .num (6/10), .num 10⟩] :=
  rfl

/-- C9: a day whose file already exists is neither fetched nor written,
and a second run of the day loop over the same inputs with unchanged
remote data writes no file at all. -/
theorem c9_sync_idempotent (remote meanProf : ℤ → Json) (fileDays : List ℤ)
    (startDate today d : ℤ) (h : d ∈ fileDays) :
    d ∉ (downloadConsumptionsForMeter remote meanProf fileDays startDate today).fetches
    ∧ d ∉ (downloadConsumptionsForMeter remote meanProf fileDays startDate today).writes
    ∧ (downloadConsumptionsForMeter remote meanProf
        (downloadConsumptionsForMeter remote meanProf fileDays startDate today).fileDays
        startDate today).writes = [] :=
  ⟨(syncDays_existing_untouched remote meanProf (dayRange startDate today)
      fileDays d h).1,
   (syncDays_existing_untouched remote meanProf (dayRange startDate today)
      fileDays d h).2,
   syncDays_second_run_no_writes remote meanProf (dayRange startDate today) fileDays⟩

/-- Witness for C9: with day 0's file on disk, start date 0 and current
date 2 (range `[0, 1]`), day 0 is neither fetched nor written, and a
second run writes nothing. -/
theorem c9_sync_idempotent_witness :
    (0 : ℤ) ∉ (downloadConsumptionsForMeter c9Remote c9MeanProf [0] 0 2).fetches
    ∧ (0 : ℤ) ∉ (downloadConsumptionsForMeter c9Remote c9MeanProf [0] 0 2).writes
    ∧ (downloadConsumptionsForMeter c9Remote c9MeanProf
        (downloadConsumptionsForMeter c9Remote c9MeanProf [0] 0 2).fileDays 0 2).writes
        = [] :=
  c9_sync_idempotent c9Remote c9MeanProf [0] 0 2 0 (by decide)

/-- C10: when the start date is on or after the current date the day
range is empty and `download_consumptions_for_meter` terminates normally
with no attempt, no fetch and no write. -/
theorem c10_start_not_before_today (remote meanProf : ℤ → Json) (fileDays : List ℤ)
    (startDate today : ℤ) (h : today ≤ startDate) :
    dayRange startDate today = []
    ∧ downloadConsumptionsForMeter remote meanProf fileDays startDate today
        = ⟨fileDays, [], [], [], none⟩ := by
  have he := dayRange_of_le startDate today h
  refine ⟨he, ?_⟩
  unfold downloadConsumptionsForMeter
  rw [he]
  exact syncDays_nil remote meanProf fileDays

/-- Witness for C10: start date 7 with current date 7 gives an empty
range and an untouched state. -/
theorem c10_start_not_before_today_witness :
    dayRange 7 7 = []
    ∧ downloadConsumptionsForMeter c10Remote c10Remote [] 7 7 = ⟨[], [], [], [], none⟩ :=
  c10_start_not_before_today c10Remote c10Remote [] 7 7 (by decide)

end SmartmeterNetzNoe
